import Mathlib

/-!
Verification of the collab-canvas-v2 core against its specification.

Shallow embedding notes:
* JavaScript numbers are modelled as `ℚ` (exact arithmetic); where the source
  relies on 32-bit integer coercion (`<<` in the DJB2 hash) the wrap-around is
  made explicit with `toInt32`.
* Transcendental functions (`Math.cos`, `Math.sin`, `Math.atan2`, `Math.sqrt`,
  `Math.PI`) are parametrised by a `RealFns` record; theorems assume only the
  algebraic facts they need (e.g. `cos 0 = 1`).
* JavaScript `Set`/`Map` values are modelled as lists of entries.
-/

namespace CollabCanvas

/- ================================================================
   src/src/utils/userColors.ts
   ================================================================ -/

/-- The curated 12-entry color palette (`USER_COLOR_PALETTE`). -/
def USER_COLOR_PALETTE : List String :=
  [ "#EF4444"  -- red
  , "#F97316"  -- orange
  , "#F59E0B"  -- amber
  , "#22C55E"  -- green
  , "#10B981"  -- emerald
  , "#14B8A6"  -- teal
  , "#06B6D4"  -- cyan
  , "#A855F7"  -- purple
  , "#EC4899"  -- pink
  , "#F43F5E"  -- rose
  , "#8B5CF6"  -- violet
  , "#D946EF"  -- fuchsia
  ]

/-- JavaScript `ToInt32` coercion: wrap an integer into `[-2^31, 2^31)`.
Used by the `<<` operator in `hashString`. -/
def toInt32 (n : ℤ) : ℤ := (n + 2 ^ 31) % 2 ^ 32 - 2 ^ 31

/-- `hashString` (DJB2 variant): `hash = ((hash << 5) + hash) + charCode`,
starting from 5381, followed by `Math.abs` at the end (the absolute value is
taken in `hashStringAbs` below).  In JavaScript `hash << 5` coerces `hash` to a
32-bit integer before shifting, while the two additions are exact, which the
fold reproduces exactly.  Characters are taken as code points, which agree with
UTF-16 code units on the basic multilingual plane. -/
def hashString (str : String) : ℤ :=
  str.data.foldl (fun hash c => toInt32 (hash * 32) + hash + (c.toNat : ℤ)) 5381

/-- `Math.abs(hash)` from the tail of `hashString` in the source. -/
def hashStringAbs (str : String) : ℕ := (hashString str).natAbs

/-- `getUserColorFromId`: deterministic fallback color from the id hash. -/
def getUserColorFromId (userId : String) : String :=
  let hash := hashStringAbs userId
  let index := hash % USER_COLOR_PALETTE.length
  USER_COLOR_PALETTE.getD index ""

/-- `pickAvailableColor`: first palette entry not taken (the source's
`for`-loop with early `return` is `List.find?`), else the hash fallback. -/
def pickAvailableColor (takenColors : List String) (fallbackId : String) : String :=
  match USER_COLOR_PALETTE.find? (fun color => !takenColors.contains color) with
  | some color => color
  | none => getUserColorFromId fallbackId

/- ================================================================
   src/src/hooks/useBoard.ts — awareness color-conflict resolution
   ================================================================ -/

/-- The `user` field of a presence record. -/
structure AwarenessUser where
  id : String
  name : String
  color : String
deriving DecidableEq

/-- One awareness slot (`LocalAwarenessState`); the live cursor is not read by
the conflict-resolution path and is omitted. -/
structure AwarenessState where
  user : Option AwarenessUser
deriving DecidableEq

/-- The color-conflict-resolution slice of `handleAwarenessChange`
(useBoard.ts lines 84–114): returns `some newColor` when the local client
yields and re-claims a color, `none` when it keeps its color.  `states` models
`awareness.getStates()` as a list of `(clientID, state)` entries, `myClientID`
is `awareness.clientID` and `myId` the closure variable `id`.  JavaScript
truthiness on `color` makes the empty string count as "no color". -/
def resolveColorConflict (states : List (ℕ × AwarenessState)) (myClientID : ℕ)
    (myId : String) : Option String :=
  let localState := (states.find? (fun p => p.1 == myClientID)).bind (fun p => p.2.user)
  match localState with
  | none => none
  | some u =>
    if u.color = "" then none
    else
      let otherColors : List String := states.filterMap (fun p =>
        if p.1 == myClientID then none
        else match p.2.user with
          | some v => if v.color = "" then none else some v.color
          | none => none)
      let hasConflict := states.any (fun p =>
        !(p.1 == myClientID) &&
        (match p.2.user with
          | some v => !(v.color == "") && v.color == u.color && decide (p.1 < myClientID)
          | none => false))
      if hasConflict then some (pickAvailableColor otherColors myId) else none

/- ================================================================
   src/src/types — the Shape tagged union
   ================================================================ -/

/-- The `Shape` tagged union from `types/index.ts`.  Only the fields read by
the verified functions (geometry, group drag) are carried: `id`, position,
optional `rotation`, and the variant-specific dimension fields.  Styling and
metadata fields (`color`, `opacity`, `zIndex`, labels, …) are never read by
those functions and are omitted. -/
inductive Shape
  | rectangle (id : String) (x y : ℚ) (rotation : Option ℚ) (width height : ℚ)
  | circle (id : String) (x y : ℚ) (rotation : Option ℚ) (radiusX radiusY : ℚ)
  | line (id : String) (x y : ℚ) (rotation : Option ℚ) (x2 y2 : ℚ)
  | text (id : String) (x y : ℚ) (rotation : Option ℚ) (width height : ℚ)
  | sticky (id : String) (x y : ℚ) (rotation : Option ℚ) (width height : ℚ)
deriving DecidableEq

namespace Shape

def id : Shape → String
  | rectangle i _ _ _ _ _ => i
  | circle i _ _ _ _ _ => i
  | line i _ _ _ _ _ => i
  | text i _ _ _ _ _ => i
  | sticky i _ _ _ _ _ => i

def x : Shape → ℚ
  | rectangle _ x _ _ _ _ => x
  | circle _ x _ _ _ _ => x
  | line _ x _ _ _ _ => x
  | text _ x _ _ _ _ => x
  | sticky _ x _ _ _ _ => x

def y : Shape → ℚ
  | rectangle _ _ y _ _ _ => y
  | circle _ _ y _ _ _ => y
  | line _ _ y _ _ _ => y
  | text _ _ y _ _ _ => y
  | sticky _ _ y _ _ _ => y

def rotation : Shape → Option ℚ
  | rectangle _ _ _ r _ _ => r
  | circle _ _ _ r _ _ => r
  | line _ _ _ r _ _ => r
  | text _ _ _ r _ _ => r
  | sticky _ _ _ r _ _ => r

/-- The `x2` field: present only on the line variant. -/
def x2 : Shape → Option ℚ
  | line _ _ _ _ a _ => some a
  | _ => none

/-- The `y2` field: present only on the line variant. -/
def y2 : Shape → Option ℚ
  | line _ _ _ _ _ b => some b
  | _ => none

def isLine : Shape → Bool
  | line _ _ _ _ _ _ => true
  | _ => false

end Shape

/-- `getShapeWidth`. -/
def getShapeWidth : Shape → ℚ
  | .rectangle _ _ _ _ w _ => w
  | .circle _ _ _ _ rx _ => rx * 2
  | .line _ x _ _ x2 _ => |x2 - x|
  | .text _ _ _ _ w _ => w
  | .sticky _ _ _ _ w _ => w

/-- `getShapeHeight`. -/
def getShapeHeight : Shape → ℚ
  | .rectangle _ _ _ _ _ h => h
  | .circle _ _ _ _ _ ry => ry * 2
  | .line _ _ y _ _ y2 => |y2 - y|
  | .text _ _ _ _ _ h => h
  | .sticky _ _ _ _ _ h => h

/- ================================================================
   canvasConstants (src/unnamed/part_015)
   ================================================================ -/

def MIN_SHAPE_SIZE : ℚ := 5
def CORNER_HIT_SIZE : ℚ := 10
def EDGE_HIT_SIZE : ℚ := 5
def ROTATION_ZONE_WIDTH : ℚ := 30

/- ================================================================
   Shape manipulation utilities (src/unnamed/part_017)
   ================================================================ -/

/-- The transcendental functions used by the geometry code (`Math.cos`,
`Math.sin`, `Math.atan2`, `Math.sqrt`, `Math.PI`).  The embedding is
parametric in them; each theorem assumes only the algebraic facts it needs. -/
structure RealFns where
  cos : ℚ → ℚ
  sin : ℚ → ℚ
  atan2 : ℚ → ℚ → ℚ
  sqrt : ℚ → ℚ
  pi : ℚ

/-- `ManipulationZone` (the string enum, one constructor per literal). -/
inductive ManipulationZone
  | center
  | nwCorner | neCorner | swCorner | seCorner
  | nEdge | sEdge | eEdge | wEdge
  | nwRotate | neRotate | swRotate | seRotate
  | startPoint | endPoint
deriving DecidableEq

/-- `HitResult`. -/
structure HitResult where
  zone : ManipulationZone
  cursor : String
deriving DecidableEq

/-- The local-frame x coordinate of the pointer: rotate the pointer around the
shape's center by the negative of the shape's rotation (the `localX`
computation shared by `detectManipulationZone` and `calculateResize`). -/
def localPointX (F : RealFns) (shape : Shape) (mouseX mouseY : ℚ) : ℚ :=
  let rotation := shape.rotation.getD 0
  let radians := -(rotation * F.pi / 180)
  let centerX := shape.x + getShapeWidth shape / 2
  let centerY := shape.y + getShapeHeight shape / 2
  let dx := mouseX - centerX
  let dy := mouseY - centerY
  centerX + (dx * F.cos radians - dy * F.sin radians)

/-- The local-frame y coordinate of the pointer (the `localY` computation). -/
def localPointY (F : RealFns) (shape : Shape) (mouseX mouseY : ℚ) : ℚ :=
  let rotation := shape.rotation.getD 0
  let radians := -(rotation * F.pi / 180)
  let centerX := shape.x + getShapeWidth shape / 2
  let centerY := shape.y + getShapeHeight shape / 2
  let dx := mouseX - centerX
  let dy := mouseY - centerY
  centerY + (dx * F.sin radians + dy * F.cos radians)

/-- `distFromLeft` in the local frame. -/
def distFromLeft (F : RealFns) (shape : Shape) (mouseX mouseY : ℚ) : ℚ :=
  localPointX F shape mouseX mouseY - shape.x

/-- `distFromRight` in the local frame. -/
def distFromRight (F : RealFns) (shape : Shape) (mouseX mouseY : ℚ) : ℚ :=
  shape.x + getShapeWidth shape - localPointX F shape mouseX mouseY

/-- `distFromTop` in the local frame. -/
def distFromTop (F : RealFns) (shape : Shape) (mouseX mouseY : ℚ) : ℚ :=
  localPointY F shape mouseX mouseY - shape.y

/-- `distFromBottom` in the local frame. -/
def distFromBottom (F : RealFns) (shape : Shape) (mouseX mouseY : ℚ) : ℚ :=
  shape.y + getShapeHeight shape - localPointY F shape mouseX mouseY

/-- `inNWRotation`: the L-shaped band just outside the NW corner. -/
def inRotationBandNW (F : RealFns) (shape : Shape) (mouseX mouseY stageScale : ℚ) : Prop :=
  distFromLeft F shape mouseX mouseY < 0 ∧
  -(ROTATION_ZONE_WIDTH / stageScale) < distFromLeft F shape mouseX mouseY ∧
  distFromTop F shape mouseX mouseY < 0 ∧
  -(ROTATION_ZONE_WIDTH / stageScale) < distFromTop F shape mouseX mouseY

/-- `inNERotation`. -/
def inRotationBandNE (F : RealFns) (shape : Shape) (mouseX mouseY stageScale : ℚ) : Prop :=
  distFromRight F shape mouseX mouseY < 0 ∧
  -(ROTATION_ZONE_WIDTH / stageScale) < distFromRight F shape mouseX mouseY ∧
  distFromTop F shape mouseX mouseY < 0 ∧
  -(ROTATION_ZONE_WIDTH / stageScale) < distFromTop F shape mouseX mouseY

/-- `inSWRotation`. -/
def inRotationBandSW (F : RealFns) (shape : Shape) (mouseX mouseY stageScale : ℚ) : Prop :=
  distFromLeft F shape mouseX mouseY < 0 ∧
  -(ROTATION_ZONE_WIDTH / stageScale) < distFromLeft F shape mouseX mouseY ∧
  distFromBottom F shape mouseX mouseY < 0 ∧
  -(ROTATION_ZONE_WIDTH / stageScale) < distFromBottom F shape mouseX mouseY

/-- `inSERotation`. -/
def inRotationBandSE (F : RealFns) (shape : Shape) (mouseX mouseY stageScale : ℚ) : Prop :=
  distFromRight F shape mouseX mouseY < 0 ∧
  -(ROTATION_ZONE_WIDTH / stageScale) < distFromRight F shape mouseX mouseY ∧
  distFromBottom F shape mouseX mouseY < 0 ∧
  -(ROTATION_ZONE_WIDTH / stageScale) < distFromBottom F shape mouseX mouseY

/-- `inBounds`: the local point is inside the shape's bounding box. -/
def inLocalBounds (F : RealFns) (shape : Shape) (mouseX mouseY : ℚ) : Prop :=
  0 ≤ distFromLeft F shape mouseX mouseY ∧ 0 ≤ distFromRight F shape mouseX mouseY ∧
  0 ≤ distFromTop F shape mouseX mouseY ∧ 0 ≤ distFromBottom F shape mouseX mouseY

instance (F : RealFns) (shape : Shape) (mouseX mouseY stageScale : ℚ) :
    Decidable (inRotationBandNW F shape mouseX mouseY stageScale) := by
  unfold inRotationBandNW; infer_instance

instance (F : RealFns) (shape : Shape) (mouseX mouseY stageScale : ℚ) :
    Decidable (inRotationBandNE F shape mouseX mouseY stageScale) := by
  unfold inRotationBandNE; infer_instance

instance (F : RealFns) (shape : Shape) (mouseX mouseY stageScale : ℚ) :
    Decidable (inRotationBandSW F shape mouseX mouseY stageScale) := by
  unfold inRotationBandSW; infer_instance

instance (F : RealFns) (shape : Shape) (mouseX mouseY stageScale : ℚ) :
    Decidable (inRotationBandSE F shape mouseX mouseY stageScale) := by
  unfold inRotationBandSE; infer_instance

instance (F : RealFns) (shape : Shape) (mouseX mouseY : ℚ) :
    Decidable (inLocalBounds F shape mouseX mouseY) := by
  unfold inLocalBounds; infer_instance

/-- `detectManipulationZone` (part_017 lines 32–112).  The line branch uses
`F.sqrt` for `Math.sqrt`; the non-line branch classifies via the local-frame
side distances with rotation bands first, then the out-of-bounds check, then
corners, edges and center. -/
def detectManipulationZone (F : RealFns) (shape : Shape) (mouseX mouseY : ℚ)
    (stageScale : ℚ) : HitResult :=
  match shape with
  | .line _ x y _ x2 y2 =>
    let cornerSize := CORNER_HIT_SIZE / stageScale
    let distToStart := F.sqrt ((mouseX - x) ^ 2 + (mouseY - y) ^ 2)
    let distToEnd := F.sqrt ((mouseX - x2) ^ 2 + (mouseY - y2) ^ 2)
    if distToStart ≤ cornerSize then ⟨.startPoint, "grab"⟩
    else if distToEnd ≤ cornerSize then ⟨.endPoint, "grab"⟩
    else
      let lineLength := F.sqrt ((x2 - x) ^ 2 + (y2 - y) ^ 2)
      if 0 < lineLength then
        let A := y2 - y
        let B := x - x2
        let C := x2 * y - x * y2
        let dist := |A * mouseX + B * mouseY + C| / F.sqrt (A * A + B * B)
        let t := ((mouseX - x) * (x2 - x) + (mouseY - y) * (y2 - y)) / (lineLength * lineLength)
        if dist ≤ cornerSize ∧ 0 ≤ t ∧ t ≤ 1 then ⟨.center, "move"⟩
        else ⟨.center, "default"⟩
      else ⟨.center, "default"⟩
  | s =>
    let cornerSize := CORNER_HIT_SIZE / stageScale
    let edgeSize := EDGE_HIT_SIZE / stageScale
    if inRotationBandNW F s mouseX mouseY stageScale ∨
        inRotationBandNE F s mouseX mouseY stageScale ∨
        inRotationBandSW F s mouseX mouseY stageScale ∨
        inRotationBandSE F s mouseX mouseY stageScale then
      if inRotationBandNW F s mouseX mouseY stageScale then ⟨.nwRotate, "grab"⟩
      else if inRotationBandNE F s mouseX mouseY stageScale then ⟨.neRotate, "grab"⟩
      else if inRotationBandSW F s mouseX mouseY stageScale then ⟨.swRotate, "grab"⟩
      else ⟨.seRotate, "grab"⟩
    else if ¬ inLocalBounds F s mouseX mouseY then ⟨.center, "default"⟩
    else if distFromLeft F s mouseX mouseY ≤ cornerSize ∧
        distFromTop F s mouseX mouseY ≤ cornerSize then ⟨.nwCorner, "nwse-resize"⟩
    else if distFromRight F s mouseX mouseY ≤ cornerSize ∧
        distFromTop F s mouseX mouseY ≤ cornerSize then ⟨.neCorner, "nesw-resize"⟩
    else if distFromLeft F s mouseX mouseY ≤ cornerSize ∧
        distFromBottom F s mouseX mouseY ≤ cornerSize then ⟨.swCorner, "nesw-resize"⟩
    else if distFromRight F s mouseX mouseY ≤ cornerSize ∧
        distFromBottom F s mouseX mouseY ≤ cornerSize then ⟨.seCorner, "nwse-resize"⟩
    else if distFromTop F s mouseX mouseY ≤ edgeSize then ⟨.nEdge, "ns-resize"⟩
    else if distFromBottom F s mouseX mouseY ≤ edgeSize then ⟨.sEdge, "ns-resize"⟩
    else if distFromLeft F s mouseX mouseY ≤ edgeSize then ⟨.wEdge, "ew-resize"⟩
    else if distFromRight F s mouseX mouseY ≤ edgeSize then ⟨.eEdge, "ew-resize"⟩
    else ⟨.center, "move"⟩

/-- `Partial<Shape>` as returned by `calculateResize`: every field optional. -/
structure ShapePatch where
  x : Option ℚ := none
  y : Option ℚ := none
  x2 : Option ℚ := none
  y2 : Option ℚ := none
  width : Option ℚ := none
  height : Option ℚ := none
  radiusX : Option ℚ := none
  radiusY : Option ℚ := none
deriving DecidableEq

/-- `calculateResize` (part_017 lines 117–192).  The `switch (zone)` that sets
`anchorX`/`anchorY`/`useMouseX`/`useMouseY` (with default `return {}`) is the
inner `match` producing an optional quadruple. -/
def calculateResize (F : RealFns) (_shape : Shape) (zone : ManipulationZone)
    (mouseX mouseY _startMouseX _startMouseY : ℚ) (originalShape : Shape) : ShapePatch :=
  match originalShape with
  | .line _ _ _ _ _ _ =>
    match zone with
    | .startPoint => { x := some mouseX, y := some mouseY }
    | .endPoint => { x2 := some mouseX, y2 := some mouseY }
    | _ => {}
  | _ =>
    let rotation := originalShape.rotation.getD 0
    let originalWidth := getShapeWidth originalShape
    let originalHeight := getShapeHeight originalShape
    let centerX := originalShape.x + originalWidth / 2
    let centerY := originalShape.y + originalHeight / 2
    let localMouseX := localPointX F originalShape mouseX mouseY
    let localMouseY := localPointY F originalShape mouseX mouseY
    let anchorInfo : Option (ℚ × ℚ × Bool × Bool) :=
      match zone with
      | .nwCorner => some (originalShape.x + originalWidth, originalShape.y + originalHeight, true, true)
      | .neCorner => some (originalShape.x, originalShape.y + originalHeight, true, true)
      | .swCorner => some (originalShape.x + originalWidth, originalShape.y, true, true)
      | .seCorner => some (originalShape.x, originalShape.y, true, true)
      | .nEdge => some (originalShape.x, originalShape.y + originalHeight, false, true)
      | .sEdge => some (originalShape.x, originalShape.y, false, true)
      | .wEdge => some (originalShape.x + originalWidth, originalShape.y, true, false)
      | .eEdge => some (originalShape.x, originalShape.y, true, false)
      | _ => none
    match anchorInfo with
    | none => {}
    | some (anchorX, anchorY, useMouseX, useMouseY) =>
      let newX := if useMouseX then min localMouseX anchorX else originalShape.x
      let newWidth := if useMouseX then max MIN_SHAPE_SIZE |localMouseX - anchorX| else originalWidth
      let newY := if useMouseY then min localMouseY anchorY else originalShape.y
      let newHeight := if useMouseY then max MIN_SHAPE_SIZE |localMouseY - anchorY| else originalHeight
      let adjusted : ℚ × ℚ :=
        if rotation ≠ 0 then
          let newCenterX := newX + newWidth / 2
          let newCenterY := newY + newHeight / 2
          let dcx := newCenterX - centerX
          let dcy := newCenterY - centerY
          let forwardRadians := rotation * F.pi / 180
          let rotatedDcx := dcx * F.cos forwardRadians - dcy * F.sin forwardRadians
          let rotatedDcy := dcx * F.sin forwardRadians + dcy * F.cos forwardRadians
          (centerX + rotatedDcx - newWidth / 2, centerY + rotatedDcy - newHeight / 2)
        else (newX, newY)
      match originalShape with
      | .rectangle _ _ _ _ _ _ =>
        { x := some adjusted.1, y := some adjusted.2, width := some newWidth, height := some newHeight }
      | .circle _ _ _ _ _ _ =>
        { x := some adjusted.1, y := some adjusted.2, radiusX := some (newWidth / 2), radiusY := some (newHeight / 2) }
      | .text _ _ _ _ _ _ =>
        { x := some adjusted.1, y := some adjusted.2, width := some newWidth, height := some newHeight }
      | .sticky _ _ _ _ _ _ =>
        { x := some adjusted.1, y := some adjusted.2, width := some newWidth, height := some newHeight }
      | .line _ _ _ _ _ _ => {}

/-- `calculateRotation` (part_017 lines 197–215). -/
def calculateRotation (F : RealFns) (shape : Shape)
    (mouseX mouseY startMouseX startMouseY initialRotation : ℚ) : ℚ :=
  let centerX := shape.x + getShapeWidth shape / 2
  let centerY := shape.y + getShapeHeight shape / 2
  let currentAngle := F.atan2 (mouseY - centerY) (mouseX - centerX)
  let startAngle := F.atan2 (startMouseY - centerY) (startMouseX - centerX)
  let deltaDegrees := (currentAngle - startAngle) * 180 / F.pi
  initialRotation + deltaDegrees

/- ================================================================
   src/src/components/CanvasPage.tsx — group drag (lines 390–424)
   ================================================================ -/

/-- The patch `{x: s.x+dx, y: s.y+dy}` (plus `x2`/`y2` for lines) merged into a
shape by `updateShape` during a group-drag move. -/
def offsetShape (s : Shape) (deltaX deltaY : ℚ) : Shape :=
  match s with
  | .rectangle i x y r w h => .rectangle i (x + deltaX) (y + deltaY) r w h
  | .circle i x y r rx ry => .circle i (x + deltaX) (y + deltaY) r rx ry
  | .line i x y r x2 y2 => .line i (x + deltaX) (y + deltaY) r (x2 + deltaX) (y2 + deltaY)
  | .text i x y r w h => .text i (x + deltaX) (y + deltaY) r w h
  | .sticky i x y r w h => .sticky i (x + deltaX) (y + deltaY) r w h

/-- The state touched by a group drag: the shapes record (`shapes[id]`, with
`updateShape` writing back) and the reference point `groupDragStartPos`. -/
structure GroupDragState where
  shapes : String → Option Shape
  refPos : ℚ × ℚ

/-- `handleGroupDragMove`: compute the delta of the container node against the
reference point, offset every selected shape (skipping missing ids), then
reset the reference point to the node's current position. -/
def handleGroupDragMove (selectedShapeIds : List String) (st : GroupDragState)
    (nodePos : ℚ × ℚ) : GroupDragState :=
  let deltaX := nodePos.1 - st.refPos.1
  let deltaY := nodePos.2 - st.refPos.2
  let shapes' := selectedShapeIds.foldl (fun m i =>
    match m i with
    | none => m
    | some s => fun k => if k = i then some (offsetShape s deltaX deltaY) else m k) st.shapes
  { shapes := shapes', refPos := nodePos }

/-- A whole drag session: `handleGroupDragStart` freezes the reference point at
the node's initial position, then each move event is processed in order. -/
def runGroupDrag (selectedShapeIds : List String) (shapes0 : String → Option Shape)
    (startPos : ℚ × ℚ) (moves : List (ℚ × ℚ)) : GroupDragState :=
  moves.foldl (handleGroupDragMove selectedShapeIds) ⟨shapes0, startPos⟩

/- ================================================================
   src/party/ai.ts — the agent execution loop
   ================================================================ -/

/-- The optional-field subset of `ShapeData` fields that tool arguments carry
(`width`…`strokeWidth` plus label/text fields). -/
structure ShapeFields where
  width : Option ℚ := none
  height : Option ℚ := none
  radiusX : Option ℚ := none
  radiusY : Option ℚ := none
  x2 : Option ℚ := none
  y2 : Option ℚ := none
  label : Option String := none
  labelFontSize : Option ℚ := none
  labelColor : Option String := none
  text : Option String := none
  arrowStart : Option Bool := none
  arrowEnd : Option Bool := none
  strokeWidth : Option ℚ := none
deriving DecidableEq

/-- A shadow-board record (`ShapeData`, the minimal client-shape mirror). -/
structure ShapeData where
  id : String
  type : String
  x : ℚ
  y : ℚ
  color : String
  fields : ShapeFields := {}
deriving DecidableEq

/-- Arguments of a `createShape` tool call. -/
structure CreateArgs where
  type : String
  x : ℚ
  y : ℚ
  color : Option String := none
  fields : ShapeFields := {}
deriving DecidableEq

/-- The `...updates` rest object of an `updateShape` tool call: optional
positional/color fields plus the optional shape fields. -/
structure ShapeUpdates where
  x : Option ℚ := none
  y : Option ℚ := none
  color : Option String := none
  fields : ShapeFields := {}
deriving DecidableEq

/-- Merge of present update fields, one `Option` at a time
(`Object.assign(target, updates)` takes a source field only when present). -/
def mergeOpt {α : Type} (upd cur : Option α) : Option α :=
  match upd with
  | some v => some v
  | none => cur

/-- `Object.assign(virtualShapes[idx], updates)`. -/
def applyUpdates (s : ShapeData) (u : ShapeUpdates) : ShapeData :=
  { s with
    x := u.x.getD s.x
    y := u.y.getD s.y
    color := u.color.getD s.color
    fields :=
      { width := mergeOpt u.fields.width s.fields.width
        height := mergeOpt u.fields.height s.fields.height
        radiusX := mergeOpt u.fields.radiusX s.fields.radiusX
        radiusY := mergeOpt u.fields.radiusY s.fields.radiusY
        x2 := mergeOpt u.fields.x2 s.fields.x2
        y2 := mergeOpt u.fields.y2 s.fields.y2
        label := mergeOpt u.fields.label s.fields.label
        labelFontSize := mergeOpt u.fields.labelFontSize s.fields.labelFontSize
        labelColor := mergeOpt u.fields.labelColor s.fields.labelColor
        text := mergeOpt u.fields.text s.fields.text
        arrowStart := mergeOpt u.fields.arrowStart s.fields.arrowStart
        arrowEnd := mergeOpt u.fields.arrowEnd s.fields.arrowEnd
        strokeWidth := mergeOpt u.fields.strokeWidth s.fields.strokeWidth } }

/-- The shape payload recorded by a `create` operation (no id yet). -/
structure CreatedShape where
  type : String
  x : ℚ
  y : ℚ
  color : String
  fields : ShapeFields := {}
deriving DecidableEq

/-- `{ id: tempId, ...shape }`. -/
def CreatedShape.withId (c : CreatedShape) (i : String) : ShapeData :=
  { id := i, type := c.type, x := c.x, y := c.y, color := c.color, fields := c.fields }

/-- `AIOperation`: the tagged union of recorded operations. -/
inductive AIOperation
  | create (shape : CreatedShape)
  | update (shapeId : String) (updates : ShapeUpdates)
  | delete (shapeId : String)
deriving DecidableEq

/-- A tool call as dispatched by `executeTool`.  The source dispatches on the
function-name string with a default branch; `unknownTool` carries that name.
Non-`function`-typed entries of `tool_calls` are skipped by the loop and are
not modelled. -/
inductive ToolCall
  | createShape (args : CreateArgs)
  | updateShape (shapeId : String) (updates : ShapeUpdates)
  | deleteShape (shapeId : String)
  | listShapes
  | unknownTool (name : String)
deriving DecidableEq

/-- The projection returned by `listShapes`. -/
structure ShapeSummary where
  id : String
  type : String
  x : ℚ
  y : ℚ
  width : Option ℚ
  height : Option ℚ
  label : Option String
  text : Option String
  color : String
deriving DecidableEq

/-- The JSON payloads `executeTool` serializes back to the model. -/
inductive ToolResult
  | successId (shapeId : String)      -- {success: true, shapeId}
  | success                           -- {success: true}
  | errorMsg (msg : String)           -- {error: msg}
  | listing (shapes : List ShapeSummary)
deriving DecidableEq

/-- The closure state `executeTool` mutates: the recorded operation log, the
shadow board (`virtualShapes`) and the temporary-id counter. -/
structure AgentState where
  operations : List AIOperation
  virtualShapes : List ShapeData
  tempIdCounter : ℕ
deriving DecidableEq

/-- `virtualShapes.findIndex(s => s.id === shapeId)`, with `none` for `-1`:
the index of the first record with the given id. -/
def findIndexById : List ShapeData → String → Option ℕ
  | [], _ => none
  | s :: rest, i => if s.id == i then some 0 else (findIndexById rest i).map (fun n => n + 1)

/-- `list.set idx (f list[idx])`, leaving the list unchanged out of bounds. -/
def modifyAt (l : List ShapeData) (idx : ℕ) (f : ShapeData → ShapeData) : List ShapeData :=
  match l.get? idx with
  | some a => l.set idx (f a)
  | none => l

/-- `executeTool` (ai.ts lines 196–247).  `findIndex` is `findIndexById`
(`none` for `-1`), `splice(idx, 1)` is `List.eraseIdx`. -/
def executeTool (st : AgentState) : ToolCall → ToolResult × AgentState
  | .createShape args =>
    let tempIdCounter := st.tempIdCounter + 1
    let tempId := "ai-temp-" ++ toString tempIdCounter
    let shape : CreatedShape :=
      { type := args.type, x := args.x, y := args.y
        color := match args.color with
          | some c => if c = "" then "#D1D5DB" else c
          | none => "#D1D5DB"
        fields := args.fields }
    ( .successId tempId,
      { operations := st.operations ++ [.create shape]
        virtualShapes := st.virtualShapes ++ [shape.withId tempId]
        tempIdCounter := tempIdCounter } )
  | .updateShape shapeId updates =>
    match findIndexById st.virtualShapes shapeId with
    | none => (.errorMsg ("Shape " ++ shapeId ++ " not found"), st)
    | some idx =>
      ( .success,
        { st with
          virtualShapes := modifyAt st.virtualShapes idx (fun s => applyUpdates s updates)
          operations := st.operations ++ [.update shapeId updates] } )
  | .deleteShape shapeId =>
    match findIndexById st.virtualShapes shapeId with
    | none => (.errorMsg ("Shape " ++ shapeId ++ " not found"), st)
    | some idx =>
      ( .success,
        { st with
          virtualShapes := st.virtualShapes.eraseIdx idx
          operations := st.operations ++ [.delete shapeId] } )
  | .listShapes =>
    ( .listing (st.virtualShapes.map (fun s =>
        { id := s.id, type := s.type, x := s.x, y := s.y
          width := s.fields.width, height := s.fields.height
          label := s.fields.label, text := s.fields.text, color := s.color })),
      st )
  | .unknownTool name => (.errorMsg ("Unknown tool: " ++ name), st)

/-- One model response: optional text content and the requested tool calls
(an absent or empty `tool_calls` array is the empty list). -/
structure ModelMessage where
  content : Option String
  toolCalls : List ToolCall

/-- A model behavior: what the chat-completion call yields in each round —
either a message (`.ok`) or a thrown transport/model error (`.error`).  The
real model sees the accumulated message history; since the behavior is
universally quantified, indexing by round number loses no generality. -/
def ModelBehavior : Type := ℕ → Except String ModelMessage

/-- `AIResponse` (the `type: 'ai-response'` discriminator is constant and
omitted); `error := none` models an absent `error` field. -/
structure AIResponse where
  operations : List AIOperation
  message : String
  error : Option String
deriving DecidableEq

def MAX_TOOL_ROUNDS : ℕ := 10

/-- Execute one round's tool calls in order, keeping the updated state. -/
def execToolCalls (calls : List ToolCall) (st : AgentState) : AgentState :=
  calls.foldl (fun s c => (executeTool s c).2) st

/-- The `for (round …)` loop of `runAIAgent` with the surrounding
`try`/`catch`: `fuel` counts the remaining rounds (initially
`MAX_TOOL_ROUNDS`), `round` the current index.  Running out of fuel is the
"Exceeded max rounds" return; a thrown error is the `catch` return; a
response without tool calls is the success return (`content || 'Done.'`,
with the empty string falsy). -/
def runAgentRounds (behavior : ModelBehavior) : ℕ → ℕ → AgentState → AIResponse
  | _, 0, st =>
    { operations := st.operations, message := "Completed (reached maximum steps).", error := none }
  | round, fuel + 1, st =>
    match behavior round with
    | .error e =>
      { operations := [], message := "", error := some ("AI agent error: " ++ e) }
    | .ok msg =>
      if msg.toolCalls.isEmpty then
        { operations := st.operations
          message := match msg.content with
            | some c => if c = "" then "Done." else c
            | none => "Done."
          error := none }
      else runAgentRounds behavior (round + 1) fuel (execToolCalls msg.toolCalls st)

/-- The initial agent state: empty log, shadow board seeded from the snapshot
(`[...currentShapes]`), temp-id counter 0. -/
def initialAgentState (currentShapes : List ShapeData) : AgentState :=
  { operations := [], virtualShapes := currentShapes, tempIdCounter := 0 }

/-- `runAIAgent` (ai.ts lines 181–308) over an abstract model behavior. -/
def runAIAgent (behavior : ModelBehavior) (currentShapes : List ShapeData) : AIResponse :=
  runAgentRounds behavior 0 MAX_TOOL_ROUNDS (initialAgentState currentShapes)

/-- The tool calls the model requests in round `r` (empty where it throws);
used to state what the loop accumulates. -/
def roundCalls (behavior : ModelBehavior) (r : ℕ) : List ToolCall :=
  match behavior r with
  | .ok m => m.toolCalls
  | .error _ => []

/-- The agent state accumulated by running `fuel` rounds of tool calls
starting at round index `round`. -/
def accumRounds (behavior : ModelBehavior) : ℕ → ℕ → AgentState → AgentState
  | _, 0, st => st
  | round, fuel + 1, st =>
    accumRounds behavior (round + 1) fuel (execToolCalls (roundCalls behavior round) st)

/- ================================================================
   Statement vocabulary and concrete instances
   ================================================================ -/

/-- Modelled from the spec's words ("the anchor point is … the original
bounding box's (left|right, top|bottom) coordinates, chosen by zone, opposite
the corner/edge being dragged"): the anchor x coordinate for a resize zone.
Dragging a west corner/edge anchors at the right edge, anything else at the
left edge. -/
def oppositeAnchorX (zone : ManipulationZone) (s : Shape) : ℚ :=
  match zone with
  | .nwCorner | .swCorner | .wEdge => s.x + getShapeWidth s
  | _ => s.x

/-- Modelled from the spec's words: the anchor y coordinate for a resize zone.
Dragging a north corner/edge anchors at the bottom edge, anything else at the
top edge. -/
def oppositeAnchorY (zone : ManipulationZone) (s : Shape) : ℚ :=
  match zone with
  | .nwCorner | .neCorner | .nEdge => s.y + getShapeHeight s
  | _ => s.y

/-- The eight corner/edge resize zones. -/
def resizeZones : List ManipulationZone :=
  [.nwCorner, .neCorner, .swCorner, .seCorner, .nEdge, .sEdge, .eEdge, .wEdge]

/-- Zones that resize the x axis. -/
def resizesX (zone : ManipulationZone) : Bool :=
  match zone with
  | .nwCorner | .neCorner | .swCorner | .seCorner | .wEdge | .eEdge => true
  | _ => false

/-- Zones that resize the y axis. -/
def resizesY (zone : ManipulationZone) : Bool :=
  match zone with
  | .nwCorner | .neCorner | .swCorner | .seCorner | .nEdge | .sEdge => true
  | _ => false

/-- The size of the shape along the x axis as emitted by a resize patch:
`width` for rectangle/text/sticky, twice the emitted `radiusX` for an
ellipse. -/
def emittedSizeX (s : Shape) (p : ShapePatch) : Option ℚ :=
  match s with
  | .circle _ _ _ _ _ _ => p.radiusX.map (fun r => r * 2)
  | _ => p.width

/-- The size of the shape along the y axis as emitted by a resize patch. -/
def emittedSizeY (s : Shape) (p : ShapePatch) : Option ℚ :=
  match s with
  | .circle _ _ _ _ _ _ => p.radiusY.map (fun r => r * 2)
  | _ => p.height

/-- A concrete `RealFns` instance agreeing with the real functions at 0
(`cos 0 = 1`, `sin 0 = 0`), used to instantiate theorems on unrotated
shapes. -/
def F0 : RealFns :=
  { cos := fun _ => 1, sin := fun _ => 0, atan2 := fun _ _ => 0
    sqrt := fun _ => 0, pi := 0 }

/-- The spec's concrete rectangle: position (100,100), size 300×250. -/
def rectC1 : Shape := Shape.rectangle "r1" 100 100 none 300 250

/-- A concrete unrotated 100×100 rectangle at the origin. -/
def rectC7 : Shape := Shape.rectangle "r7" 0 0 none 100 100

/-- A concrete two-shape board: a rectangle "a" and a line "b". -/
def boardC2 : String → Option Shape := fun k =>
  if k = "a" then some (Shape.rectangle "a" 1 2 none 30 40)
  else if k = "b" then some (Shape.line "b" 5 6 none 7 8)
  else none

/-- A model behavior that creates a rectangle in every round. -/
def bAlwaysCreate : ModelBehavior := fun _ =>
  .ok { content := none
        toolCalls := [.createShape { type := "rectangle", x := 10, y := 20 }] }

/-- A model behavior that creates shapes for two rounds, then throws. -/
def bFailAfterTwo : ModelBehavior := fun r =>
  if r < 2 then
    .ok { content := none
          toolCalls := [.createShape { type := "sticky", x := 0, y := 0 }] }
  else .error "boom"

/-- A model behavior that never throws: one round without tool calls. -/
def bNeverThrows : ModelBehavior := fun _ =>
  .ok { content := some "done", toolCalls := [] }

/-- A concrete shadow-board record. -/
def sdataC8 : ShapeData := { id := "s1", type := "rectangle", x := 0, y := 0, color := "#FFF" }

/-- Two awareness slots holding the same color `c`, as both clients see them
once both presence records have propagated. -/
def twoClientStates (a b : ℕ) (c idA nameA idB nameB : String) :
    List (ℕ × AwarenessState) :=
  [(a, ⟨some ⟨idA, nameA, c⟩⟩), (b, ⟨some ⟨idB, nameB, c⟩⟩)]

/-- The container node's final position over a list of move events (the last
position, or the start position if no move fired). -/
def finalPos (startPos : ℚ × ℚ) (moves : List (ℚ × ℚ)) : ℚ × ℚ :=
  moves.foldl (fun _ q => q) startPos

/- ================================================================
   Helper lemmas
   ================================================================ -/

theorem offsetShape_zero (s : Shape) : offsetShape s 0 0 = s := by
  cases s <;> simp [offsetShape]

theorem offsetShape_offsetShape (s : Shape) (a b c d : ℚ) :
    offsetShape (offsetShape s a b) c d = offsetShape s (a + c) (b + d) := by
  cases s <;> simp [offsetShape] <;> ring_nf <;> trivial

theorem offsetShape_x (s : Shape) (dx dy : ℚ) : (offsetShape s dx dy).x = s.x + dx := by
  cases s <;> rfl

theorem offsetShape_y (s : Shape) (dx dy : ℚ) : (offsetShape s dx dy).y = s.y + dy := by
  cases s <;> rfl

theorem offsetShape_x2 (s : Shape) (dx dy : ℚ) :
    (offsetShape s dx dy).x2 = s.x2.map (fun v => v + dx) := by
  cases s <;> rfl

theorem offsetShape_y2 (s : Shape) (dx dy : ℚ) :
    (offsetShape s dx dy).y2 = s.y2.map (fun v => v + dy) := by
  cases s <;> rfl

/-- The per-move fold over the selection offsets exactly the selected ids. -/
theorem foldl_offset_apply (deltaX deltaY : ℚ) :
    ∀ (sel : List String), sel.Nodup → ∀ (m : String → Option Shape) (k : String),
      (sel.foldl (fun m i =>
        match m i with
        | none => m
        | some s => fun k' => if k' = i then some (offsetShape s deltaX deltaY) else m k') m) k =
      if k ∈ sel then (m k).map (fun s => offsetShape s deltaX deltaY) else m k := by
  intro sel
  induction sel with
  | nil => intro _ m k; simp
  | cons a l ih =>
    intro hnd m k
    have hal : a ∉ l := (List.nodup_cons.mp hnd).1
    have hl : l.Nodup := (List.nodup_cons.mp hnd).2
    simp only [List.foldl_cons]
    rw [ih hl]
    by_cases hkl : k ∈ l
    · have hka : k ≠ a := fun h => hal (h ▸ hkl)
      have hm1 : (match m a with
          | none => m
          | some s => fun k' => if k' = a then some (offsetShape s deltaX deltaY) else m k') k
          = m k := by
        cases m a with
        | none => rfl
        | some s => simp [hka]
      rw [hm1]
      simp [hkl, List.mem_cons, hka]
    · by_cases hka : k = a
      · subst hka
        cases hma : m k with
        | none => simp [hkl, hma]
        | some s => simp [hkl, hma]
      · have hm1 : (match m a with
            | none => m
            | some s => fun k' => if k' = a then some (offsetShape s deltaX deltaY) else m k') k
            = m k := by
          cases m a with
          | none => rfl
          | some s => simp [hka]
        rw [hm1]
        simp [hkl, hka]

/-- A whole group-drag session offsets every selected shape by the cumulative
delta (last container position minus start position) and ends with the
reference point at the last container position. -/
theorem runGroupDrag_spec (sel : List String) (hnd : sel.Nodup) :
    ∀ (moves : List (ℚ × ℚ)) (m : String → Option Shape) (p0 : ℚ × ℚ),
      (runGroupDrag sel m p0 moves).refPos = finalPos p0 moves ∧
      ∀ k, (runGroupDrag sel m p0 moves).shapes k =
        if k ∈ sel then (m k).map (fun s =>
          offsetShape s ((finalPos p0 moves).1 - p0.1) ((finalPos p0 moves).2 - p0.2))
        else m k := by
  intro moves
  induction moves with
  | nil =>
    intro m p0
    refine ⟨rfl, fun k => ?_⟩
    by_cases hk : k ∈ sel
    · simp [runGroupDrag, finalPos, hk, offsetShape_zero]
    · simp [runGroupDrag, finalPos, hk]
  | cons p ps ih =>
    intro m p0
    have hstep : runGroupDrag sel m p0 (p :: ps) =
        runGroupDrag sel (handleGroupDragMove sel ⟨m, p0⟩ p).shapes p ps := by
      unfold runGroupDrag
      rw [List.foldl_cons]
      rfl
    have hfp : finalPos p0 (p :: ps) = finalPos p ps := rfl
    obtain ⟨ihref, ihshapes⟩ := ih (handleGroupDragMove sel ⟨m, p0⟩ p).shapes p
    refine ⟨by rw [hstep, hfp]; exact ihref, fun k => ?_⟩
    rw [hstep, hfp, ihshapes k]
    have hm1 : (handleGroupDragMove sel ⟨m, p0⟩ p).shapes k =
        if k ∈ sel then (m k).map (fun s => offsetShape s (p.1 - p0.1) (p.2 - p0.2))
        else m k := by
      unfold handleGroupDragMove
      exact foldl_offset_apply _ _ sel hnd m k
    rw [hm1]
    by_cases hk : k ∈ sel
    · simp only [hk, if_true]
      cases m k with
      | none => rfl
      | some s =>
        simp only [Option.map_some']
        rw [offsetShape_offsetShape]
        congr 2 <;> ring
    · simp [hk]

/-- `List.find?` returns the first element satisfying the predicate. -/
theorem find?_isFirst {α : Type} (p : α → Bool) :
    ∀ (l : List α) (a : α), l.find? p = some a →
      ∃ i : ℕ, l.get? i = some a ∧ p a = true ∧
        ∀ j, j < i → ∀ b, l.get? j = some b → p b = false := by
  intro l
  induction l with
  | nil => intro a h; simp [List.find?] at h
  | cons x xs ih =>
    intro a h
    by_cases hx : p x
    · rw [List.find?_cons_of_pos _ hx] at h
      injection h with h
      subst h
      exact ⟨0, rfl, hx, fun j hj => absurd hj (Nat.not_lt_zero j)⟩
    · rw [List.find?_cons_of_neg _ hx] at h
      obtain ⟨i, hget, hpa, hfirst⟩ := ih a h
      refine ⟨i + 1, by simpa using hget, hpa, ?_⟩
      intro j hj b hb
      cases j with
      | zero =>
        simp only [List.get?_cons_zero, Option.some.injEq] at hb
        subst hb
        exact Bool.eq_false_iff.mpr hx
      | succ k =>
        exact hfirst k (by omega) b (by simpa using hb)

/-- The hash fallback always lands inside the palette. -/
theorem getUserColorFromId_mem (userId : String) :
    getUserColorFromId userId ∈ USER_COLOR_PALETTE := by
  unfold getUserColorFromId
  have hlt : hashStringAbs userId % USER_COLOR_PALETTE.length < USER_COLOR_PALETTE.length :=
    Nat.mod_lt _ (by decide)
  rw [List.getD_eq_getElem USER_COLOR_PALETTE "" hlt]
  exact List.getElem_mem _

/-- When exactly one color is taken, `pickAvailableColor` never returns it. -/
theorem pickAvailableColor_singleton_ne (c fallbackId : String) :
    pickAvailableColor [c] fallbackId ≠ c := by
  unfold pickAvailableColor
  cases hfind : USER_COLOR_PALETTE.find? (fun color => !([c].contains color)) with
  | none =>
    have hall := List.find?_eq_none.mp hfind
    have h1 : "#EF4444" = c := by
      have := hall "#EF4444" (by decide)
      simpa using this
    have h2 : "#F97316" = c := by
      have := hall "#F97316" (by decide)
      simpa using this
    exact absurd (h1.trans h2.symm) (by decide)
  | some r =>
    have hp := List.find?_some hfind
    simpa using hp

/- ================================================================
   Claim theorems
   ================================================================ -/

/-- C9: for every shape, every pointer position, and every initial rotation
value, `calculateRotation` with the current pointer equal to the drag-start
pointer returns exactly the initial rotation: the angular delta is exactly
zero, for every interpretation of `atan2` and `Math.PI`. -/
theorem calculateRotation_zero_delta (F : RealFns) (shape : Shape)
    (mouseX mouseY initialRotation : ℚ) :
    calculateRotation F shape mouseX mouseY mouseX mouseY initialRotation = initialRotation := by
  unfold calculateRotation
  simp

/-- C10: `pickAvailableColor` always returns a member of the fixed palette
`USER_COLOR_PALETTE`; the hash fallback index is taken modulo the palette
length and is therefore always within bounds. -/
theorem pickAvailableColor_mem_palette (takenColors : List String) (fallbackId : String) :
    pickAvailableColor takenColors fallbackId ∈ USER_COLOR_PALETTE ∧
    hashStringAbs fallbackId % USER_COLOR_PALETTE.length < USER_COLOR_PALETTE.length := by
  have hlt : hashStringAbs fallbackId % USER_COLOR_PALETTE.length < USER_COLOR_PALETTE.length :=
    Nat.mod_lt _ (by decide)
  refine ⟨?_, hlt⟩
  unfold pickAvailableColor
  cases hfind : USER_COLOR_PALETTE.find? (fun color => !takenColors.contains color) with
  | some c => exact List.mem_of_find?_eq_some hfind
  | none => simpa using getUserColorFromId_mem fallbackId

/-- C6: if at least one palette entry is not taken, `pickAvailableColor`
returns the first such entry in palette order; if every palette entry is
taken, it returns the palette entry at index `hash(userId) mod palette-size`,
with `hash` the (JavaScript DJB2) string hash of the source. -/
theorem pickAvailableColor_firstUnused_or_hash (takenColors : List String) (fallbackId : String) :
    ((∃ c ∈ USER_COLOR_PALETTE, takenColors.contains c = false) →
      ∃ i : ℕ,
        USER_COLOR_PALETTE.get? i = some (pickAvailableColor takenColors fallbackId) ∧
        takenColors.contains (pickAvailableColor takenColors fallbackId) = false ∧
        ∀ j, j < i → ∀ c, USER_COLOR_PALETTE.get? j = some c →
          takenColors.contains c = true) ∧
    ((∀ c ∈ USER_COLOR_PALETTE, takenColors.contains c = true) →
      pickAvailableColor takenColors fallbackId =
        USER_COLOR_PALETTE.getD (hashStringAbs fallbackId % USER_COLOR_PALETTE.length) "") := by
  constructor
  · rintro ⟨c, hc, hnc⟩
    cases hfind : USER_COLOR_PALETTE.find? (fun color => !takenColors.contains color) with
    | none =>
      exfalso
      have h' := List.find?_eq_none.mp hfind c hc
      rw [hnc] at h'
      exact h' rfl
    | some r =>
      obtain ⟨i, hget, hp, hfirst⟩ := find?_isFirst _ _ _ hfind
      have hpick : pickAvailableColor takenColors fallbackId = r := by
        unfold pickAvailableColor
        rw [hfind]
      refine ⟨i, by rw [hpick]; exact hget, by rw [hpick]; simpa using hp, ?_⟩
      intro j hj b hb
      have := hfirst j hj b hb
      simpa using this
  · intro hall
    unfold pickAvailableColor getUserColorFromId
    have hnone : USER_COLOR_PALETTE.find? (fun color => !takenColors.contains color) = none := by
      rw [List.find?_eq_none]
      intro c hc
      rw [hall c hc]
      decide
    rw [hnone]

/-- Witness for C6 at concrete inputs: with only red taken the first unused
entry (orange) is returned; with the whole palette taken the hash fallback
is returned. -/
theorem pickAvailableColor_firstUnused_or_hash_witness :
    (∃ i : ℕ,
      USER_COLOR_PALETTE.get? i = some (pickAvailableColor ["#EF4444"] "user-1") ∧
      (["#EF4444"] : List String).contains (pickAvailableColor ["#EF4444"] "user-1") = false ∧
      ∀ j, j < i → ∀ c, USER_COLOR_PALETTE.get? j = some c →
        (["#EF4444"] : List String).contains c = true) ∧
    pickAvailableColor USER_COLOR_PALETTE "user-1" =
      USER_COLOR_PALETTE.getD (hashStringAbs "user-1" % USER_COLOR_PALETTE.length) "" := by
  constructor
  · exact (pickAvailableColor_firstUnused_or_hash ["#EF4444"] "user-1").1
      ⟨"#F97316", by decide, by decide⟩
  · exact (pickAvailableColor_firstUnused_or_hash USER_COLOR_PALETTE "user-1").2 (by decide)

/-- C5: when two connected clients hold the same color `c` and both presence
records are visible, on the next awareness update the client with the higher
awareness clientID yields: it re-claims the first palette color not held by
the other client (which differs from `c`), while the lower-clientID client
keeps its color — so the result is two distinct colors. -/
theorem colorConflict_higher_yields (a b : ℕ) (hab : a < b)
    (c idA nameA idB nameB : String) (hc : c ≠ "") :
    resolveColorConflict (twoClientStates a b c idA nameA idB nameB) a idA = none ∧
    resolveColorConflict (twoClientStates a b c idA nameA idB nameB) b idB =
      some (pickAvailableColor [c] idB) ∧
    pickAvailableColor [c] idB ≠ c ∧
    (∃ i : ℕ, USER_COLOR_PALETTE.get? i = some (pickAvailableColor [c] idB) ∧
      ∀ j, j < i → ∀ p, USER_COLOR_PALETTE.get? j = some p → p = c) := by
  have hba : (b == a) = false := beq_eq_false_iff_ne.mpr (Ne.symm (Nat.ne_of_lt hab))
  have hab' : (a == b) = false := beq_eq_false_iff_ne.mpr (Nat.ne_of_lt hab)
  have hcbeq : (c == "") = false := beq_eq_false_iff_ne.mpr hc
  have hblta : decide (b < a) = false := decide_eq_false (by omega)
  have halt : decide (a < b) = true := decide_eq_true hab
  refine ⟨?_, ?_, pickAvailableColor_singleton_ne c idB, ?_⟩
  · simp [resolveColorConflict, twoClientStates, List.find?, hba, hcbeq, hblta, hc,
      hab.ne, hab.ne']
  · simp [resolveColorConflict, twoClientStates, List.find?, hab', hcbeq, halt, hc,
      hab.ne, hab.ne']
  · cases hfind : USER_COLOR_PALETTE.find? (fun color => !([c].contains color)) with
    | none =>
      exfalso
      have hall := List.find?_eq_none.mp hfind
      have h1 : "#EF4444" = c := by simpa using hall "#EF4444" (by decide)
      have h2 : "#F97316" = c := by simpa using hall "#F97316" (by decide)
      exact absurd (h1.trans h2.symm) (by decide)
    | some r =>
      have hpick : pickAvailableColor [c] idB = r := by
        unfold pickAvailableColor
        rw [hfind]
      obtain ⟨i, hget, _, hfirst⟩ := find?_isFirst _ _ _ hfind
      refine ⟨i, by rw [hpick]; exact hget, ?_⟩
      intro j hj p hpj
      have h2 : p ∈ [c] := by simpa using hfirst j hj p hpj
      simpa using h2

/-- Witness for C5: clients 1 and 2 both holding red; client 2 yields. -/
theorem colorConflict_higher_yields_witness :
    resolveColorConflict (twoClientStates 1 2 "#EF4444" "u1" "Ann" "u2" "Ben") 1 "u1" = none ∧
    resolveColorConflict (twoClientStates 1 2 "#EF4444" "u1" "Ann" "u2" "Ben") 2 "u2" =
      some (pickAvailableColor ["#EF4444"] "u2") ∧
    pickAvailableColor ["#EF4444"] "u2" ≠ "#EF4444" ∧
    (∃ i : ℕ, USER_COLOR_PALETTE.get? i = some (pickAvailableColor ["#EF4444"] "u2") ∧
      ∀ j, j < i → ∀ p, USER_COLOR_PALETTE.get? j = some p → p = "#EF4444") :=
  colorConflict_higher_yields 1 2 (by decide) "#EF4444" "u1" "Ann" "u2" "Ben" (by decide)

/-- C2: a group drag of two or more selected shapes, processed as any number
of intermediate move events whose container deltas telescope to (dx,dy), ends
with every selected shape offset by exactly (dx,dy) from its pre-drag
position — for a line both endpoints are offset — independent of how many
move events were processed. -/
theorem groupDrag_cumulative (selectedShapeIds : List String)
    (hnd : selectedShapeIds.Nodup) (_hN : 2 ≤ selectedShapeIds.length)
    (shapes0 : String → Option Shape) (startPos : ℚ × ℚ) (moves : List (ℚ × ℚ))
    (k : String) (hk : k ∈ selectedShapeIds) (s0 : Shape) (hs0 : shapes0 k = some s0) :
    ∃ s1, (runGroupDrag selectedShapeIds shapes0 startPos moves).shapes k = some s1 ∧
      s1.x = s0.x + ((finalPos startPos moves).1 - startPos.1) ∧
      s1.y = s0.y + ((finalPos startPos moves).2 - startPos.2) ∧
      s1.x2 = s0.x2.map (fun v => v + ((finalPos startPos moves).1 - startPos.1)) ∧
      s1.y2 = s0.y2.map (fun v => v + ((finalPos startPos moves).2 - startPos.2)) := by
  obtain ⟨_, hshapes⟩ := runGroupDrag_spec selectedShapeIds hnd moves shapes0 startPos
  refine ⟨offsetShape s0 ((finalPos startPos moves).1 - startPos.1)
      ((finalPos startPos moves).2 - startPos.2), ?_,
    offsetShape_x _ _ _, offsetShape_y _ _ _, offsetShape_x2 _ _ _, offsetShape_y2 _ _ _⟩
  rw [hshapes k]
  simp [hk, hs0]

/-- Witness for C2: a two-shape selection dragged through two move events. -/
theorem groupDrag_cumulative_witness :
    ∃ s1, (runGroupDrag ["a", "b"] boardC2 (0, 0) [(3, 4), (10, -2)]).shapes "a" = some s1 ∧
      s1.x = (Shape.rectangle "a" 1 2 none 30 40).x +
        ((finalPos (0, 0) [(3, 4), (10, -2)]).1 - (0 : ℚ)) ∧
      s1.y = (Shape.rectangle "a" 1 2 none 30 40).y +
        ((finalPos (0, 0) [(3, 4), (10, -2)]).2 - (0 : ℚ)) ∧
      s1.x2 = (Shape.rectangle "a" 1 2 none 30 40).x2.map
        (fun v => v + ((finalPos (0, 0) [(3, 4), (10, -2)]).1 - (0 : ℚ))) ∧
      s1.y2 = (Shape.rectangle "a" 1 2 none 30 40).y2.map
        (fun v => v + ((finalPos (0, 0) [(3, 4), (10, -2)]).2 - (0 : ℚ))) :=
  groupDrag_cumulative ["a", "b"] (by decide) (by decide) boardC2 (0, 0)
    [(3, 4), (10, -2)] "a" (by decide) (Shape.rectangle "a" 1 2 none 30 40) (by decide)

/-- When every round requests tool calls, the loop consumes all its fuel and
returns the accumulated operations with the max-steps notice. -/
theorem runAgentRounds_allCalls (behavior : ModelBehavior)
    (h : ∀ r, ∃ m, behavior r = .ok m ∧ m.toolCalls ≠ []) :
    ∀ (fuel round : ℕ) (st : AgentState),
      runAgentRounds behavior round fuel st =
        { operations := (accumRounds behavior round fuel st).operations
          message := "Completed (reached maximum steps).", error := none } := by
  intro fuel
  induction fuel with
  | zero => intro round st; rfl
  | succ n ih =>
    intro round st
    obtain ⟨m, hm, hne⟩ := h round
    have hie : m.toolCalls.isEmpty = false := by
      cases hmc : m.toolCalls with
      | nil => exact absurd hmc hne
      | cons a l => rfl
    rw [runAgentRounds, hm]
    simp only [hie, Bool.false_eq_true, if_false]
    rw [ih]
    have hacc : accumRounds behavior round (n + 1) st =
        accumRounds behavior (round + 1) n (execToolCalls m.toolCalls st) := by
      rw [accumRounds, roundCalls, hm]
    rw [hacc]

/-- A thrown transport/model error at round `k` (with tool calls requested in
every earlier round) makes the loop return the catch response. -/
theorem runAgentRounds_error (behavior : ModelBehavior) (e : String) :
    ∀ (k fuel round : ℕ) (st : AgentState), k < fuel →
      (∀ j, j < k → ∃ m, behavior (round + j) = .ok m ∧ m.toolCalls ≠ []) →
      behavior (round + k) = .error e →
      runAgentRounds behavior round fuel st =
        { operations := [], message := "", error := some ("AI agent error: " ++ e) } := by
  intro k
  induction k with
  | zero =>
    intro fuel round st hk hpre herr
    cases fuel with
    | zero => omega
    | succ n =>
      rw [Nat.add_zero] at herr
      rw [runAgentRounds, herr]
  | succ kn ih =>
    intro fuel round st hk hpre herr
    cases fuel with
    | zero => omega
    | succ n =>
      obtain ⟨m, hm, hne⟩ := hpre 0 (Nat.succ_pos kn)
      rw [Nat.add_zero] at hm
      have hie : m.toolCalls.isEmpty = false := by
        cases hmc : m.toolCalls with
        | nil => exact absurd hmc hne
        | cons a l => rfl
      rw [runAgentRounds, hm]
      simp only [hie, Bool.false_eq_true, if_false]
      refine ih n (round + 1) (execToolCalls m.toolCalls st) (by omega) ?_ ?_
      · intro j hj
        have hp := hpre (j + 1) (by omega)
        rwa [show round + (j + 1) = round + 1 + j by omega] at hp
      · rwa [show round + (kn + 1) = round + 1 + kn by omega] at herr

/-- A behavior that never throws can never set the response error field. -/
theorem runAgentRounds_error_none (behavior : ModelBehavior)
    (h : ∀ r, ∃ m, behavior r = .ok m) :
    ∀ (fuel round : ℕ) (st : AgentState),
      (runAgentRounds behavior round fuel st).error = none := by
  intro fuel
  induction fuel with
  | zero => intro round st; rfl
  | succ n ih =>
    intro round st
    obtain ⟨m, hm⟩ := h round
    rw [runAgentRounds, hm]
    cases hmc : m.toolCalls.isEmpty with
    | true => simp [hmc]
    | false =>
      simp only [hmc, Bool.false_eq_true, if_false]
      exact ih (round + 1) (execToolCalls m.toolCalls st)

/-- An absent id never matches in the shadow board. -/
theorem findIndexById_eq_none (shapeId : String) :
    ∀ l : List ShapeData, (∀ s ∈ l, s.id ≠ shapeId) → findIndexById l shapeId = none := by
  intro l
  induction l with
  | nil => intro _; rfl
  | cons s rest ih =>
    intro h
    have hs : (s.id == shapeId) = false :=
      beq_eq_false_iff_ne.mpr (h s (List.mem_cons_self s rest))
    rw [findIndexById, hs]
    simp only [Bool.false_eq_true, if_false]
    rw [ih (fun a ha => h a (List.mem_cons_of_mem s ha))]
    rfl

/-- C3: against any model behavior that requests tool calls in every round,
the agent loop terminates after exactly `MAX_TOOL_ROUNDS = 10` rounds and
returns the operation list accumulated over those rounds (dropping none of
them) together with the "reached maximum steps" notice and no error. -/
theorem agentLoop_round_bound (behavior : ModelBehavior)
    (h : ∀ r, ∃ m, behavior r = .ok m ∧ m.toolCalls ≠ []) (currentShapes : List ShapeData) :
    MAX_TOOL_ROUNDS = 10 ∧
    runAIAgent behavior currentShapes =
      { operations :=
          (accumRounds behavior 0 MAX_TOOL_ROUNDS (initialAgentState currentShapes)).operations
        message := "Completed (reached maximum steps).", error := none } ∧
    ((accumRounds behavior 0 MAX_TOOL_ROUNDS (initialAgentState currentShapes)).operations ≠ [] →
      (runAIAgent behavior currentShapes).operations ≠ []) := by
  have hmain := runAgentRounds_allCalls behavior h MAX_TOOL_ROUNDS 0
    (initialAgentState currentShapes)
  refine ⟨rfl, hmain, ?_⟩
  intro hne
  rw [show runAIAgent behavior currentShapes =
    runAgentRounds behavior 0 MAX_TOOL_ROUNDS (initialAgentState currentShapes) from rfl, hmain]
  exact hne

/-- Witness for C3: a model that creates a rectangle in every round runs for
all 10 rounds and accumulates 10 create operations. -/
theorem agentLoop_round_bound_witness :
    (MAX_TOOL_ROUNDS = 10 ∧
      runAIAgent bAlwaysCreate [] =
        { operations := (accumRounds bAlwaysCreate 0 MAX_TOOL_ROUNDS (initialAgentState [])).operations
          message := "Completed (reached maximum steps).", error := none } ∧
      ((accumRounds bAlwaysCreate 0 MAX_TOOL_ROUNDS (initialAgentState [])).operations ≠ [] →
        (runAIAgent bAlwaysCreate []).operations ≠ [])) ∧
    (accumRounds bAlwaysCreate 0 MAX_TOOL_ROUNDS (initialAgentState [])).operations.length = 10 := by
  refine ⟨agentLoop_round_bound bAlwaysCreate (fun r => ⟨_, rfl, by decide⟩) [], ?_⟩
  decide

/-- C4: if the model call throws at some round (after any number of rounds
that did request tool calls), the loop aborts immediately and returns an
empty operations list together with a non-empty error string, no matter how
many operations had been accumulated. -/
theorem agentLoop_error_aborts (behavior : ModelBehavior) (currentShapes : List ShapeData)
    (k : ℕ) (e : String) (hk : k < MAX_TOOL_ROUNDS)
    (hpre : ∀ j, j < k → ∃ m, behavior j = .ok m ∧ m.toolCalls ≠ [])
    (herr : behavior k = .error e) :
    runAIAgent behavior currentShapes =
      { operations := [], message := "", error := some ("AI agent error: " ++ e) } ∧
    ∀ s, (runAIAgent behavior currentShapes).error = some s → s ≠ "" := by
  have hmain : runAIAgent behavior currentShapes =
      { operations := [], message := "", error := some ("AI agent error: " ++ e) } := by
    refine runAgentRounds_error behavior e k MAX_TOOL_ROUNDS 0
      (initialAgentState currentShapes) hk ?_ ?_
    · intro j hj
      simpa using hpre j hj
    · simpa using herr
  refine ⟨hmain, ?_⟩
  intro s hs
  rw [hmain] at hs
  have hseq : s = "AI agent error: " ++ e := by
    injection hs with hs'
    exact hs'.symm
  subst hseq
  intro hempty
  have hlen := congrArg String.length hempty
  rw [String.length_append] at hlen
  have h16 : ("AI agent error: " : String).length = 16 := rfl
  rw [h16] at hlen
  simp at hlen

/-- Witness for C4: a model that creates shapes for two rounds and then
throws; the two accumulated creates are discarded. -/
theorem agentLoop_error_aborts_witness :
    runAIAgent bFailAfterTwo [] =
      { operations := [], message := "", error := some ("AI agent error: " ++ "boom") } ∧
    ∀ s, (runAIAgent bFailAfterTwo []).error = some s → s ≠ "" :=
  agentLoop_error_aborts bFailAfterTwo [] 2 "boom" (by decide)
    (fun j hj =>
      ⟨{ content := none, toolCalls := [.createShape { type := "sticky", x := 0, y := 0 }] },
        by unfold bFailAfterTwo; rw [if_pos hj], by decide⟩)
    rfl

/-- C8: an `updateShape` or `deleteShape` tool call whose `shapeId` is absent
from the shadow board returns an explicit error payload to the model, appends
no operation to the log and leaves the whole agent state (shadow board
included) unchanged; tool-result errors are never surfaced as a user-visible
failure — whenever the model transport never throws, the response error field
stays absent. -/
theorem unknownShadowId_toolError (st : AgentState) (shapeId : String)
    (updates : ShapeUpdates) (h : ∀ s ∈ st.virtualShapes, s.id ≠ shapeId) :
    executeTool st (.updateShape shapeId updates) =
      (.errorMsg ("Shape " ++ shapeId ++ " not found"), st) ∧
    executeTool st (.deleteShape shapeId) =
      (.errorMsg ("Shape " ++ shapeId ++ " not found"), st) ∧
    ∀ (behavior : ModelBehavior) (currentShapes : List ShapeData),
      (∀ r, ∃ m, behavior r = .ok m) → (runAIAgent behavior currentShapes).error = none := by
  have hfind : findIndexById st.virtualShapes shapeId = none :=
    findIndexById_eq_none shapeId st.virtualShapes h
  refine ⟨?_, ?_, ?_⟩
  · rw [executeTool, hfind]
  · rw [executeTool, hfind]
  · intro behavior currentShapes hok
    exact runAgentRounds_error_none behavior hok MAX_TOOL_ROUNDS 0
      (initialAgentState currentShapes)

/-- Witness for C8: updating/deleting an id not on the shadow board, and a
non-throwing run with an absent error field. -/
theorem unknownShadowId_toolError_witness :
    (executeTool ⟨[], [sdataC8], 0⟩ (.updateShape "zzz" {}) =
      (.errorMsg ("Shape " ++ "zzz" ++ " not found"), ⟨[], [sdataC8], 0⟩)) ∧
    (executeTool ⟨[], [sdataC8], 0⟩ (.deleteShape "zzz") =
      (.errorMsg ("Shape " ++ "zzz" ++ " not found"), ⟨[], [sdataC8], 0⟩)) ∧
    (runAIAgent bNeverThrows []).error = none := by
  have h := unknownShadowId_toolError ⟨[], [sdataC8], 0⟩ "zzz" {} (by decide)
  exact ⟨h.1, h.2.1, h.2.2 bNeverThrows [] (fun r => ⟨_, rfl⟩)⟩

/-- On an unrotated shape the local-frame pointer x is the pointer x. -/
theorem localPointX_unrotated (F : RealFns) (s : Shape) (mx my : ℚ)
    (hrot : s.rotation.getD 0 = 0) (hcos : F.cos 0 = 1) (hsin : F.sin 0 = 0) :
    localPointX F s mx my = mx := by
  unfold localPointX
  rw [hrot]
  simp [hcos, hsin]

/-- On an unrotated shape the local-frame pointer y is the pointer y. -/
theorem localPointY_unrotated (F : RealFns) (s : Shape) (mx my : ℚ)
    (hrot : s.rotation.getD 0 = 0) (hcos : F.cos 0 = 1) (hsin : F.sin 0 = 0) :
    localPointY F s mx my = my := by
  unfold localPointY
  rw [hrot]
  simp [hcos, hsin]

/-- The floored size is always strictly positive. -/
theorem min_size_pos (v : ℚ) : 0 < max MIN_SHAPE_SIZE |v| :=
  lt_of_lt_of_le (by norm_num [MIN_SHAPE_SIZE]) (le_max_left _ _)

set_option maxHeartbeats 4000000 in
/-- C1: for every non-line shape and every corner/edge zone, an unrotated
resize anchors at the opposite corner/edge of the original bounding box; on
each resized axis the emitted size is `max(MIN_SHAPE_SIZE, |pointer −
anchor|)` (always positive — the shape flips instead of clamping) and the
emitted x (resp. y) is `min(pointer, anchor)`; the other axis keeps the
original position and size. -/
theorem calculateResize_corner_edge (F : RealFns) (hcos : F.cos 0 = 1) (hsin : F.sin 0 = 0)
    (s : Shape) (hline : s.isLine = false) (hrot : s.rotation.getD 0 = 0)
    (zone : ManipulationZone) (hz : zone ∈ resizeZones)
    (shape0 : Shape) (mx my smx smy : ℚ) :
    (resizesX zone = true →
      (calculateResize F shape0 zone mx my smx smy s).x =
        some (min mx (oppositeAnchorX zone s)) ∧
      emittedSizeX s (calculateResize F shape0 zone mx my smx smy s) =
        some (max MIN_SHAPE_SIZE |mx - oppositeAnchorX zone s|) ∧
      0 < max MIN_SHAPE_SIZE |mx - oppositeAnchorX zone s|) ∧
    (resizesX zone = false →
      (calculateResize F shape0 zone mx my smx smy s).x = some s.x ∧
      emittedSizeX s (calculateResize F shape0 zone mx my smx smy s) =
        some (getShapeWidth s)) ∧
    (resizesY zone = true →
      (calculateResize F shape0 zone mx my smx smy s).y =
        some (min my (oppositeAnchorY zone s)) ∧
      emittedSizeY s (calculateResize F shape0 zone mx my smx smy s) =
        some (max MIN_SHAPE_SIZE |my - oppositeAnchorY zone s|) ∧
      0 < max MIN_SHAPE_SIZE |my - oppositeAnchorY zone s|) ∧
    (resizesY zone = false →
      (calculateResize F shape0 zone mx my smx smy s).y = some s.y ∧
      emittedSizeY s (calculateResize F shape0 zone mx my smx smy s) =
        some (getShapeHeight s)) := by
  have hlx := localPointX_unrotated F s mx my hrot hcos hsin
  have hly := localPointY_unrotated F s mx my hrot hcos hsin
  have hvx := min_size_pos (mx - oppositeAnchorX zone s)
  have hvy := min_size_pos (my - oppositeAnchorY zone s)
  fin_cases hz <;> cases s <;>
    simp_all [calculateResize, resizesX, resizesY, oppositeAnchorX, oppositeAnchorY,
      emittedSizeX, emittedSizeY, getShapeWidth, getShapeHeight,
      Shape.x, Shape.y, Shape.rotation, Shape.isLine]

/-- Witness for C1: the spec's concrete scenario — rectangle at (100,100) of
size 300×250, se-corner resize to pointer (500,450) — yields width 400,
height 350 with x,y unchanged at (100,100). -/
theorem calculateResize_corner_edge_witness :
    (calculateResize F0 rectC1 .seCorner 500 450 0 0 rectC1).x = some 100 ∧
    (calculateResize F0 rectC1 .seCorner 500 450 0 0 rectC1).y = some 100 ∧
    emittedSizeX rectC1 (calculateResize F0 rectC1 .seCorner 500 450 0 0 rectC1) = some 400 ∧
    emittedSizeY rectC1 (calculateResize F0 rectC1 .seCorner 500 450 0 0 rectC1) = some 350 := by
  have h := calculateResize_corner_edge F0 rfl rfl rectC1 rfl rfl .seCorner (by decide)
    rectC1 500 450 0 0
  obtain ⟨hX, _, hY, _⟩ := h
  obtain ⟨hx1, hx2, _⟩ := hX rfl
  obtain ⟨hy1, hy2, _⟩ := hY rfl
  have hax : oppositeAnchorX .seCorner rectC1 = 100 := rfl
  have hay : oppositeAnchorY .seCorner rectC1 = 100 := rfl
  rw [hax] at hx1 hx2
  rw [hay] at hy1 hy2
  have habsx : |(500 : ℚ) - 100| = 400 := by
    rw [show (500 : ℚ) - 100 = 400 by norm_num]
    exact abs_of_pos (by norm_num)
  have habsy : |(450 : ℚ) - 100| = 350 := by
    rw [show (450 : ℚ) - 100 = 350 by norm_num]
    exact abs_of_pos (by norm_num)
  rw [habsx] at hx2
  rw [habsy] at hy2
  refine ⟨?_, ?_, ?_, ?_⟩
  · rw [hx1]; norm_num [min_def]
  · rw [hy1]; norm_num [min_def]
  · rw [hx2]; norm_num [max_def, MIN_SHAPE_SIZE]
  · rw [hy2]; norm_num [max_def, MIN_SHAPE_SIZE]

set_option maxHeartbeats 4000000 in
/-- A pointer whose local point is outside the bounding box and in none of
the rotation bands makes the classifier return `center` with the default
cursor. -/
theorem detect_outside_helper (F : RealFns) (s : Shape) (hline : s.isLine = false)
    (mx my stageScale : ℚ)
    (hout : ¬ inLocalBounds F s mx my)
    (hnw : ¬ inRotationBandNW F s mx my stageScale)
    (hne : ¬ inRotationBandNE F s mx my stageScale)
    (hsw : ¬ inRotationBandSW F s mx my stageScale)
    (hse : ¬ inRotationBandSE F s mx my stageScale) :
    detectManipulationZone F s mx my stageScale = ⟨.center, "default"⟩ := by
  cases s with
  | line i x y r x2 y2 => simp [Shape.isLine] at hline
  | rectangle i x y r w h =>
    rw [detectManipulationZone, if_neg (by tauto), if_pos hout]
    simp
  | circle i x y r rx ry =>
    rw [detectManipulationZone, if_neg (by tauto), if_pos hout]
    simp
  | text i x y r w h =>
    rw [detectManipulationZone, if_neg (by tauto), if_pos hout]
    simp
  | sticky i x y r w h =>
    rw [detectManipulationZone, if_neg (by tauto), if_pos hout]
    simp

/-- The local-frame point of the far-away pointer on the concrete rectangle. -/
theorem rectC7_localPoint :
    localPointX F0 rectC7 1000 1000 = 1000 ∧ localPointY F0 rectC7 1000 1000 = 1000 := by
  constructor <;>
    norm_num [localPointX, localPointY, F0, rectC7, Shape.x, Shape.y, Shape.rotation,
      getShapeWidth, getShapeHeight]

/-- The concrete pointer is outside the box and in no rotation band. -/
theorem rectC7_outside :
    ¬ inLocalBounds F0 rectC7 1000 1000 ∧
    ¬ inRotationBandNW F0 rectC7 1000 1000 1 ∧
    ¬ inRotationBandNE F0 rectC7 1000 1000 1 ∧
    ¬ inRotationBandSW F0 rectC7 1000 1000 1 ∧
    ¬ inRotationBandSE F0 rectC7 1000 1000 1 := by
  obtain ⟨hx, hy⟩ := rectC7_localPoint
  have hrx : rectC7.x = 0 := rfl
  have hry : rectC7.y = 0 := rfl
  have hrw : getShapeWidth rectC7 = 100 := rfl
  have hrh : getShapeHeight rectC7 = 100 := rfl
  refine ⟨?_, ?_, ?_, ?_, ?_⟩ <;>
    norm_num [inLocalBounds, inRotationBandNW, inRotationBandNE, inRotationBandSW,
      inRotationBandSE, distFromLeft, distFromRight, distFromTop, distFromBottom,
      hx, hy, hrx, hry, hrw, hrh, ROTATION_ZONE_WIDTH]

/-- C7 (amended): for a non-line shape and a pointer whose local point falls
outside the bounding box and inside none of the four rotation bands, the
classifier reports no corner, edge or rotation zone and the default cursor
hint — but the zone value it returns is `center` (the code's encoding of "no
zone", distinguished from the draggable center by the `default` cursor),
not a distinct no-zone value. -/
theorem detectZone_outside_noZone (F : RealFns) (s : Shape) (hline : s.isLine = false)
    (mx my stageScale : ℚ)
    (hout : ¬ inLocalBounds F s mx my)
    (hnw : ¬ inRotationBandNW F s mx my stageScale)
    (hne : ¬ inRotationBandNE F s mx my stageScale)
    (hsw : ¬ inRotationBandSW F s mx my stageScale)
    (hse : ¬ inRotationBandSE F s mx my stageScale) :
    detectManipulationZone F s mx my stageScale = ⟨.center, "default"⟩ :=
  detect_outside_helper F s hline mx my stageScale hout hnw hne hsw hse

/-- Witness for the amended C7 at a concrete far-away pointer. -/
theorem detectZone_outside_noZone_witness :
    detectManipulationZone F0 rectC7 1000 1000 1 = ⟨.center, "default"⟩ :=
  detectZone_outside_noZone F0 rectC7 rfl 1000 1000 1
    rectC7_outside.1 rectC7_outside.2.1 rectC7_outside.2.2.1
    rectC7_outside.2.2.2.1 rectC7_outside.2.2.2.2

/-- C7 counterexample: for the unrotated 100×100 rectangle at the origin and
pointer (1000,1000) — outside the bounding box and in no rotation band — the
code reports zone `center` (cursor "default"), whereas the claim as stated
says no center zone is reported. -/
theorem detectZone_outside_counterexample :
    ¬ inLocalBounds F0 rectC7 1000 1000 ∧
    ¬ inRotationBandNW F0 rectC7 1000 1000 1 ∧
    ¬ inRotationBandNE F0 rectC7 1000 1000 1 ∧
    ¬ inRotationBandSW F0 rectC7 1000 1000 1 ∧
    ¬ inRotationBandSE F0 rectC7 1000 1000 1 ∧
    (detectManipulationZone F0 rectC7 1000 1000 1).zone = .center ∧
    (detectManipulationZone F0 rectC7 1000 1000 1).cursor = "default" := by
  obtain ⟨hout, hnw, hne, hsw, hse⟩ := rectC7_outside
  have hdet := detect_outside_helper F0 rectC7 rfl 1000 1000 1 hout hnw hne hsw hse
  exact ⟨hout, hnw, hne, hsw, hse, by rw [hdet], by rw [hdet]⟩

end CollabCanvas
